import Mathlib

/-!
Verification of the wherigo geofencing / timer engine (src/wherigo.py).

The Python source is shallowly embedded below.  Real-number arithmetic of the
source (Python floats) is modelled with `ℚ`; every counterexample in this file
is evaluated at small integer or dyadic inputs on which Python float
arithmetic is exact, so the refutations transfer to the source as written.
Transcendental spherical trigonometry (haversine distance, forward bearing,
cross-track distance) cannot be embedded executably; those values are taken
as oracle parameters of the affected definitions, while every branch,
guard and state update of the source is embedded faithfully.
-/

namespace Wherigo

/-- Python's float modulo `a % b` for `b > 0`: `a - b * ⌊a / b⌋`, in `[0, b)`. -/
def pymod (a b : ℚ) : ℚ := a - b * ⌊a / b⌋

/-- Python's `int (x)` conversion: truncation toward zero. -/
def pyint (q : ℚ) : ℤ := if 0 ≤ q then ⌊q⌋ else ⌈q⌉

/-- A valid geographical point (`ZonePoint` with a real location): latitude and
longitude in degrees.  The altitude attribute of the source's `ZonePoint` is
carried around but never read by any of the functions embedded here
(`_intersect`, `IsPointInZone`, `VectorToPoint`, ...), so it is omitted. -/
structure ZonePt where
  latitude : ℚ
  longitude : ℚ
deriving DecidableEq, Repr

/-- A point argument as the source passes it around: either a real `ZonePoint`
or the `INVALID_ZONEPOINT` sentinel (`none`). -/
abbrev GeoPoint := Option ZonePt

/-- `_intersect (point, segment)` (src/wherigo.py 857-877): whether a meridian
line from the north pole down to `point` crosses the segment; returns 0 or 1.
The source also returns 0 when a segment endpoint is the invalid sentinel; the
segments built by `IsPointInZone` consist of the zone's boundary points, which
are embedded as real points, so only the query point can be invalid here. -/
def intersect (point : GeoPoint) (segment : ZonePt × ZonePt) : ℕ :=
  match point with
  | none => 0
  | some p =>
    let lon1 := segment.1.longitude
    let lon2 := segment.2.longitude
    let lonp := p.longitude
    if pymod (lon2 - lon1) 360 > 180 then
      -- lon1 > lon2
      if pymod (lonp - lon2) 360 > 180 ∨ pymod (lon1 - lonp) 360 ≥ 180 ∨ lon1 = lonp then 0
      else
        let lat := segment.1.latitude +
          (segment.2.latitude - segment.1.latitude) * pymod (lon1 - lonp) 360 / pymod (lon1 - lon2) 360
        if lat > p.latitude then 1 else 0
    else
      -- lon2 > lon1
      if pymod (lonp - lon1) 360 > 180 ∨ pymod (lon2 - lonp) 360 ≥ 180 ∨ lon2 = lonp then 0
      else
        let lat := segment.1.latitude +
          (segment.2.latitude - segment.1.latitude) * pymod (lonp - lon1) 360 / pymod (lon2 - lon1) 360
        if lat > p.latitude then 1 else 0

/-- The closed edge list of a boundary point list: the source appends
`points[0]` to the list and walks consecutive pairs
(`points += (points[0],)` and the loop of src/wherigo.py 892-895). -/
def closedEdges : List ZonePt → List (ZonePt × ZonePt)
  | [] => []
  | p0 :: rest => List.zip (p0 :: rest) (rest ++ [p0])

/-- The synthesized reference point of `IsPointInZone` (src/wherigo.py 891):
`ZonePoint (points[0].latitude, (points[0].longitude + 180) % 180 - 90, ...)`,
intended to lie outside every non-huge zone.  `none` for an empty boundary
list (where the source would raise an IndexError). -/
def nonorigin : List ZonePt → GeoPoint
  | [] => none
  | p0 :: _ => some ⟨p0.latitude, pymod (p0.longitude + 180) 180 - 90⟩

/-- Number of boundary edges crossed by the pole-to-`point` meridian line:
the `num` contributions of one of the two `_intersect` calls in the loop of
`IsPointInZone` (src/wherigo.py 893-895). -/
def crossCount (point : GeoPoint) (pts : List ZonePt) : ℕ :=
  ((closedEdges pts).map (fun e => intersect point e)).sum

/-- `IsPointInZone (point, zone)` (src/wherigo.py 880-896).  The invalid point
is outside every zone; otherwise the parity of the total crossing count of the
query point and of the synthesized exterior reference point decides the
result.  A zone is represented by its boundary point list `zone.Points`. -/
def IsPointInZone (point : GeoPoint) (pts : List ZonePt) : Bool :=
  match point with
  | none => false
  | some _ => (crossCount point pts + crossCount (nonorigin pts) pts) % 2 != 0

/-- `Distance.__init__` (src/wherigo.py 270-282): the stored value in meters,
or the `AssertionError` for an unrecognized unit token. -/
def distanceInit (value : ℚ) (units : String) : Except String ℚ :=
  if units = "feet" ∨ units = "ft" then .ok (value * 1609.344 / 5280)
  else if units = "miles" ∨ units = "mi" then .ok (value * 1609.344)
  else if units = "meters" ∨ units = "m" then .ok value
  else if units = "kilometers" ∨ units = "km" then .ok (value * 1000)
  else if units = "nauticalmiles" then .ok (value * 1852)
  else .error ("invalid length unit " ++ units)

/-- `Distance.GetValue` (src/wherigo.py 283-298) on a stored meter value.
Note the unit token lists differ from the constructor: `mi` is missing. -/
def distanceGetValue (value : ℚ) (units : String) : Except String ℚ :=
  if units = "feet" ∨ units = "ft" then .ok (value / 1609.344 * 5280)
  else if units = "miles" then .ok (value / 1609.344)
  else if units = "meters" ∨ units = "m" then .ok value
  else if units = "kilometers" ∨ units = "km" then .ok (value / 1000)
  else if units = "nauticalmiles" then .ok (value / 1852)
  else .error ("invalid length unit " ++ units)

/-- `ShowScreen` (src/wherigo.py 839-843): rounds the screen number with
`int (screen + .5)` (truncation toward zero) and asserts
`0 <= screen < len (_screen_names)` with `len (_screen_names) = 6`.
Returns the accepted screen index or the assertion failure. -/
def ShowScreen (screen : ℚ) : Except String ℤ :=
  let s := pyint (screen + 1/2)
  if 0 ≤ s ∧ s < 6 then .ok s else .error "assert"

/-- The `_log_names` tuple (src/wherigo.py 46). -/
def logNames : List String := ["DEBUG", "CARTRIDGE", "INFO", "WARNING", "ERROR"]

/-- `LogMessage` (src/wherigo.py 828-836), level handling only.  The source
asserts `0 <= level < _log_names`; the right comparison compares an int with
the tuple itself (not its length), which in Python 2 is always true (ints
order before tuples), so the assert checks only `0 <= level`.  A level ≥ 5
then fails at the `_log_names[level]` lookup instead (IndexError).  Returns
the accepted (level, name) pair or the failure. -/
def LogMessage (level : ℚ) : Except String (ℤ × String) :=
  let l := pyint (level + 1/2)
  if 0 ≤ l then
    match logNames.get? l.toNat with
    | some name => .ok (l, name)
    | none => .error "IndexError"
  else .error "assert"

/-- Result of a geodesy vector operation: either the absorbing invalid result
— `Distance (float ('inf'))` paired with the `float ('nan')` undefined-bearing
marker — or a finite (distance-in-meters, bearing) pair. -/
inductive VecResult
  | invalid
  | finite (dist : ℚ) (bearing : ℚ)
deriving DecidableEq, Repr

/-- `VectorToPoint (p1, p2)` (src/wherigo.py 934-950).  Invalid inputs give
the absorbing invalid result; points on one meridian use the special case of
line 939-940 (exact rational arithmetic); the general haversine/bearing
computation is transcendental and is supplied by the oracle `geod`. -/
def VectorToPoint (geod : ZonePt → ZonePt → ℚ × ℚ) (p1 p2 : GeoPoint) : VecResult :=
  match p1, p2 with
  | some q1, some q2 =>
    if q1.longitude = q2.longitude then
      .finite (|q1.latitude - q2.latitude| * 60 * 1852)
        (if q1.latitude ≤ q2.latitude then 0 else 180)
    else
      .finite (geod q1 q2).1 (geod q1 q2).2
  | _, _ => .invalid

/-- `VectorToSegment (point, p1, p2)` (src/wherigo.py 899-914).  Any invalid
input point is absorbing (line 902-903); the cross-track computation of the
valid case is transcendental and supplied by the oracle `seg`. -/
def VectorToSegment (seg : ZonePt → ZonePt → ZonePt → ℚ × ℚ) (point p1 p2 : GeoPoint) : VecResult :=
  match point, p1, p2 with
  | some q, some q1, some q2 => .finite (seg q q1 q2).1 (seg q q1 q2).2
  | _, _, _ => .invalid

/-- `VectorToZone (point, zone)` (src/wherigo.py 917-931): invalid query point
is absorbing (line 920-921); a point inside the zone gives `(Distance (0), 0)`;
otherwise the minimum of `VectorToSegment` over the boundary edges, first
minimum winning (the comparison of line 929 via `Distance.__cmp__`).  The
source indexes `points[-1]` and so raises on an empty boundary list; that
case is mapped to the invalid result here. -/
def VectorToZone (seg : ZonePt → ZonePt → ZonePt → ℚ × ℚ) (point : GeoPoint)
    (pts : List ZonePt) : VecResult :=
  match point with
  | none => .invalid
  | some q =>
    if IsPointInZone point pts then .finite 0 0
    else
      match pts with
      | [] => .invalid
      | p0 :: rest =>
        let first := seg q ((p0 :: rest).getLastD p0) p0
        let best := (List.zip (p0 :: rest) rest).foldl
          (fun cur pr => let this := seg q pr.1 pr.2; if this.1 < cur.1 then this else cur) first
        .finite best.1 best.2

/-- `TranslatePoint (point, distance, bearing)` (src/wherigo.py 953-966): the
invalid point is returned unchanged; the direct geodesic computation of the
valid case is transcendental and supplied by the oracle `tr`. -/
def TranslatePoint (tr : ZonePt → ℚ → ℚ → ZonePt) (point : GeoPoint)
    (distance bearing : ℚ) : GeoPoint :=
  match point with
  | none => none
  | some q => some (tr q distance bearing)

/-- The public `State` of a `Zone` — the engine only ever assigns these four
string values (src/wherigo.py 592, 602, 608, 618). -/
inductive ZState
  | Inside
  | Proximity
  | Distant
  | NotInRange
deriving DecidableEq, Repr

/-- A handler invocation recorded by the embedded tick: which handler slot of
the zone the engine called. -/
inductive ZEvent
  | OnSetActive
  | OnDistant
  | OnProximity
  | OnEnter
  | OnExit
  | OnInside
  | OnNotInRange
deriving DecidableEq, Repr

/-- A `Zone` as the per-tick loop of `ZCartridge._update` reads and writes it.
`prevActive`, `prevInside` and `prevState` embed the private trackers
`_active`, `_inside` and `_state`.  Handler slots are embedded as presence
flags: for `OnEnter`/`OnExit`/`OnProximity`/`OnDistant` the attribute is
always set by `Zone.__init__`, so the flag means "handler is not None"; for
`OnSetActive`, `OnInside` and `OnNotInRange`, which `Zone.__init__` does not
set, the flag means the attribute was attached (and, where the engine also
tests truthiness, is truthy).  `ProximityRange`/`DistanceRange`/
`CurrentDistance` are the underlying meter values of the `Distance` objects
(`Distance.__cmp__` compares exactly these). -/
structure Zone where
  Active : Bool
  prevActive : Bool
  prevInside : Bool
  State : ZState
  prevState : ZState
  hasOnSetActive : Bool
  hasOnEnter : Bool
  hasOnExit : Bool
  hasOnProximity : Bool
  hasOnDistant : Bool
  hasOnInside : Bool
  hasOnNotInRange : Bool
  ProximityRange : ℚ
  DistanceRange : ℚ
  Points : List ZonePt
  CurrentDistance : ℚ
  CurrentBearing : ℚ
  inInsideSet : Bool
deriving DecidableEq, Repr

/-- Activation-edge step (src/wherigo.py 557-563): if `Active` differs from
the `_active` tracker, update the tracker and call `OnSetActive` when the
attribute exists.  Returns the zone, the handler calls, and the contribution
to `update_all`. -/
def zoneActivation (z : Zone) : Zone × List ZEvent × Bool :=
  if z.prevActive ≠ z.Active then
    let z1 := { z with prevActive := z.Active }
    if z1.hasOnSetActive then (z1, [.OnSetActive], true) else (z1, [], false)
  else (z, [], false)

/-- Containment-edge step (src/wherigo.py 569-590): on a change of the
`_inside` tracker, update the player's inside set and fire, in order,
`OnDistant` (if `_state` was `NotInRange`), `OnProximity` (if `_state` was not
already `Proximity`), `OnEnter` when becoming inside, or `OnExit` when
leaving; each only when the handler is present. -/
def zoneContainment (inside : Bool) (z : Zone) : Zone × List ZEvent × Bool :=
  if inside = z.prevInside then (z, [], false)
  else
    let z1 := { z with prevInside := inside }
    if inside then
      let z2 := { z1 with inInsideSet := true }
      let e1 : List ZEvent := if z2.prevState = .NotInRange ∧ z2.hasOnDistant then [.OnDistant] else []
      let e2 : List ZEvent := if z2.prevState ≠ .Proximity ∧ z2.hasOnProximity then [.OnProximity] else []
      let e3 : List ZEvent := if z2.hasOnEnter then [.OnEnter] else []
      (z2, e1 ++ e2 ++ e3, true)
    else
      let z2 := { z1 with inInsideSet := false }
      (z2, if z2.hasOnExit then [.OnExit] else [], true)

/-- Proximity classification for a zone the player is not inside
(src/wherigo.py 597-618), after `CurrentDistance`/`CurrentBearing` have been
stored: `Proximity` when closer than `ProximityRange`, else `Distant` when
`DistanceRange` is negative (unbounded) or the distance is below it, else
`NotInRange`; with the `OnDistant`/`OnProximity` side handlers of the three
branches. -/
def zoneClassify (z : Zone) : Zone × List ZEvent × Bool :=
  if z.CurrentDistance < z.ProximityRange then
    if z.prevState = .NotInRange ∧ z.hasOnDistant then
      ({ z with State := .Proximity }, [.OnDistant], true)
    else
      ({ z with State := .Proximity }, [], false)
  else if z.DistanceRange < 0 ∨ z.CurrentDistance < z.DistanceRange then
    if z.prevState = .Inside ∧ z.hasOnProximity then
      ({ z with State := .Distant }, [.OnProximity], true)
    else
      ({ z with State := .Distant }, [], false)
  else
    let e1 : List ZEvent := if z.prevState = .Inside ∧ z.hasOnProximity then [.OnProximity] else []
    let e2 : List ZEvent := if (z.prevState = .Inside ∨ z.prevState = .Proximity) ∧ z.hasOnDistant then [.OnDistant] else []
    ({ z with State := .NotInRange }, e1 ++ e2, !(e1 ++ e2).isEmpty)

/-- The handler slot the generic state-change step looks up as
`'On' + i.State` (src/wherigo.py 623). -/
def stateHandlerPresent (z : Zone) : ZState → Bool
  | .Inside => z.hasOnInside
  | .Proximity => z.hasOnProximity
  | .Distant => z.hasOnDistant
  | .NotInRange => z.hasOnNotInRange

/-- The event recorded for the generic `'On' + i.State` handler. -/
def stateEvent : ZState → ZEvent
  | .Inside => .OnInside
  | .Proximity => .OnProximity
  | .Distant => .OnDistant
  | .NotInRange => .OnNotInRange

/-- Generic state-change step (src/wherigo.py 619-627), which the source runs
only in the not-inside branch: when the freshly computed public `State`
differs from the `_state` tracker, record it and call the handler named
`'On' + State` if present. -/
def zoneGeneric (z : Zone) : Zone × List ZEvent × Bool :=
  if z.State ≠ z.prevState then
    let z1 := { z with prevState := z.State }
    if stateHandlerPresent z1 z1.State then (z1, [stateEvent z1.State], true)
    else (z1, [], false)
  else (z, [], false)

/-- The Zone branch of one `ZCartridge._update` iteration (src/wherigo.py
556-627) for a single zone, with the player at the valid position `pos`.
`vtz` supplies the `(distance, bearing)` result of the
`VectorToZone (Player.ObjectLocation, i)` call of line 596, whose general
case is transcendental; it receives the zone state at the point of the call.
Handlers are modelled as observers: the event list records, in source order,
the handler slots the engine invokes.  The final `Bool` is this zone's
contribution to `update_all`. -/
def zoneTick (vtz : Zone → ℚ × ℚ) (pos : ZonePt) (z : Zone) : Zone × List ZEvent × Bool :=
  let a := zoneActivation z
  let z1 := a.1
  if z1.Active = false then
    -- lines 564-568: drop the zone from the player's inside set and skip.
    if z1.inInsideSet then ({ z1 with inInsideSet := false }, a.2.1, true)
    else (z1, a.2.1, a.2.2)
  else
    let inside := IsPointInZone (some pos) z1.Points
    let c := zoneContainment inside z1
    let z2 := c.1
    if inside then
      -- lines 591-593: no generic handler runs in the inside branch.
      ({ z2 with State := .Inside, prevState := .Inside },
        a.2.1 ++ c.2.1, a.2.2 || c.2.2)
    else
      let db := vtz z2
      let z3 := { z2 with CurrentDistance := db.1, CurrentBearing := db.2 }
      let k := zoneClassify z3
      let g := zoneGeneric k.1
      (g.1, a.2.1 ++ c.2.1 ++ k.2.1 ++ g.2.1, a.2.2 || c.2.2 || k.2.2 || g.2.2)

/-- A timer-side effect recorded by the embedded `ZTimer.Tick`: handler
invocations and the `_cb.add_timer (delay, ...)` scheduling request. -/
inductive TEvent
  | OnStart
  | OnStop
  | OnTick
  | AddTimer (delay : ℚ)
deriving DecidableEq, Repr

/-- A `ZTimer` as `Tick` reads and writes it.  `timerType` is the `Type`
string attribute (`'Countdown'` or `'Interval'`; `Tick` tests it against
`'Interval'` and treats anything else like a countdown).  `target` is the
private `_target` (`none` when stopped).  Handler slots are presence flags
(handler is not None). -/
structure Timer where
  timerType : String
  Duration : ℚ
  Remaining : ℚ
  target : Option ℚ
  hasOnStart : Bool
  hasOnStop : Bool
  hasOnTick : Bool
deriving DecidableEq, Repr

/-- `ZTimer.Tick` (src/wherigo.py 688-713) at cartridge time `now`
(`self.Cartridge._time`).  For an Interval timer: clamp a still-future target
down to `now` (manual invocation), advance it by `Duration`, clamp it forward
to `now` if it fell behind, call `OnStart` if present ("braindead, but it's
what the original does"), issue the `add_timer` request, and only then call
`OnTick`.  For any other type: stop and call `OnTick`.  The event list
records the side effects in source order.  An Interval timer with `target =
none` would raise a TypeError in the source (`None + float`); `Tick` is only
reached while the timer is running, and that case is left unchanged here. -/
def timerTick (now : ℚ) (t : Timer) : Timer × List TEvent :=
  if t.timerType = "Interval" then
    match t.target with
    | none => (t, [])
    | some tgt =>
      let tgt1 := if tgt > now then now else tgt
      let tgt2 := tgt1 + t.Duration
      let rem2 := tgt2 - now
      let tgt3 := if tgt2 < now then now else tgt2
      let rem3 := if tgt2 < now then t.Duration else rem2
      let t1 := { t with target := some tgt3, Remaining := rem3 }
      (t1, (if t.hasOnStart then [TEvent.OnStart] else []) ++ [TEvent.AddTimer (tgt3 - now)]
        ++ (if t.hasOnTick then [TEvent.OnTick] else []))
  else
    let t1 := { t with target := none, Remaining := -1 }
    (t1, if t.hasOnTick then [TEvent.OnTick] else [])

/-- The flat containment state `ZObject.MoveTo` manipulates: entities are
numbered, `container` is each entity's `Container` attribute (`none` for a
falsy Container) and `inventory` each entity's `Inventory` list. -/
structure GraphState where
  container : ℕ → Option ℕ
  inventory : ℕ → List ℕ

/-- `ZObject.MoveTo (self, owner)` (src/wherigo.py 371-378) for entity `e`:
if `e` has a Container, remove the first occurrence of `e` from that
Container's Inventory when present (`l.index`/`pop`, a no-op otherwise —
`List.erase` does exactly this); set `e`'s Container to `owner`; if `owner`
is truthy, append `e` to `owner`'s Inventory. -/
def MoveTo (s : GraphState) (e : ℕ) (owner : Option ℕ) : GraphState :=
  let s1 : GraphState :=
    match s.container e with
    | some c => { s with inventory := fun x => if x = c then (s.inventory c).erase e else s.inventory x }
    | none => s
  let s2 : GraphState := { s1 with container := fun x => if x = e then owner else s1.container x }
  match owner with
  | some o => { s2 with inventory := fun x => if x = o then s2.inventory o ++ [e] else s2.inventory x }
  | none => s2

/-- Consistency of the containment state: membership in an Inventory implies
the matching Container back-reference (hence an entity is in at most one
Inventory), and no Inventory holds an entity more than once.  States built by
the constructors satisfy this. -/
def Consistent (s : GraphState) : Prop :=
  (∀ e c, e ∈ s.inventory c → s.container e = some c) ∧
  (∀ e c, (s.inventory c).count e ≤ 1)

/-! Concrete data used by counterexamples and witnesses. -/

/-- The square zone boundary of the spec's scenario section:
corners (0,0), (0,1), (1,1), (1,0) in degrees. -/
def sqPts : List ZonePt := [⟨0, 0⟩, ⟨0, 1⟩, ⟨1, 1⟩, ⟨1, 0⟩]

/-- A triangle whose synthesized exterior reference point changes crossing
parity under rotation of the vertex list (all coordinates are small integers,
on which Python float arithmetic is exact). -/
def cexPts : List ZonePt := [⟨65, -147⟩, ⟨-15, -119⟩, ⟨46, 51⟩]

/-- An oracle standing in for the transcendental `VectorToZone` result:
about 600 km at bearing 225, a plausible value for a player at (5,5) and the
unit square zone. -/
def vtz600 : Zone → ℚ × ℚ := fun _ => (600000, 225)

/-- C1's scenario zone: active and steady (tracker agrees), previously not
inside and `NotInRange`, with both `OnDistant` and `OnProximity` handlers
attached, `ProximityRange` 10000 km and unbounded `DistanceRange`. -/
def c1Zone : Zone :=
  { Active := true
    prevActive := true
    prevInside := false
    State := ZState.NotInRange
    prevState := ZState.NotInRange
    hasOnSetActive := false
    hasOnEnter := true
    hasOnExit := true
    hasOnProximity := true
    hasOnDistant := true
    hasOnInside := false
    hasOnNotInRange := false
    ProximityRange := 10000000
    DistanceRange := -1
    Points := sqPts
    CurrentDistance := 0
    CurrentBearing := 0
    inInsideSet := false }

/-- C2's failing configuration: a zone whose `Active` flag was toggled off and
back on between two ticks, so that at the tick it again equals the `_active`
tracker, with an `OnSetActive` handler attached. -/
def c2Zone : Zone :=
  { c1Zone with hasOnSetActive := true }

/-- C5's counterexample: a zone deactivated while its public State was
`Inside` (tracker already caught up, so no activation edge fires). -/
def c5Zone : Zone :=
  { c1Zone with
    Active := false
    prevActive := false
    prevInside := true
    State := ZState.Inside
    prevState := ZState.Inside
    inInsideSet := true }

/-- C3's counterexample timer: a running Interval timer, Duration 5, firing
exactly on schedule (target = now = 10), with an on-tick handler and no
on-start handler. -/
def c3Timer : Timer :=
  { timerType := "Interval"
    Duration := 5
    Remaining := 0
    target := some 10
    hasOnStart := false
    hasOnStop := false
    hasOnTick := true }

/-- C9's witness timer: a running Interval timer with both an on-start and an
on-tick handler. -/
def c9Timer : Timer :=
  { c3Timer with hasOnStart := true }

/-- The empty containment state (no containers, all inventories empty). -/
def c8Empty : GraphState :=
  { container := fun _ => none, inventory := fun _ => [] }

/-- A one-edge containment state: entity 3 is contained in entity 2. -/
def c8One : GraphState :=
  { container := fun x => if x = 3 then some 2 else none
    inventory := fun x => if x = 2 then [3] else [] }

/-! ## Theorems -/

/-- C7: for every invalid (sentinel) input point the geodesy operations are
absorbing and never raise: `VectorToPoint` (either argument invalid), and
`VectorToSegment` (any of its three points invalid) return the infinite
Distance with the undefined-bearing marker; `VectorToZone` with an invalid
query point does the same; `TranslatePoint` returns the invalid point
unchanged; and `IsPointInZone` reports the invalid point outside every zone. -/
theorem c7_invalid_absorbing :
    (∀ geod p2, VectorToPoint geod none p2 = .invalid) ∧
    (∀ geod p1, VectorToPoint geod p1 none = .invalid) ∧
    (∀ seg p1 p2, VectorToSegment seg none p1 p2 = .invalid) ∧
    (∀ seg p p2, VectorToSegment seg p none p2 = .invalid) ∧
    (∀ seg p p1, VectorToSegment seg p p1 none = .invalid) ∧
    (∀ seg pts, VectorToZone seg none pts = .invalid) ∧
    (∀ tr d b, TranslatePoint tr none d b = none) ∧
    (∀ pts, IsPointInZone none pts = false) := by
  refine ⟨?_, ?_, ?_, ?_, ?_, ?_, ?_, ?_⟩
  · intro geod p2; cases p2 <;> rfl
  · intro geod p1; cases p1 <;> rfl
  · intro seg p1 p2; cases p1 <;> cases p2 <;> rfl
  · intro seg p p2; cases p <;> cases p2 <;> rfl
  · intro seg p p1; cases p <;> cases p1 <;> rfl
  · intro seg pts; rfl
  · intro tr d b; rfl
  · intro pts; rfl

/-- C10: the `Distance` constructor accepts the abbreviation `mi` (storing
value × 1609.344 meters) but `GetValue` does not, raising the invalid-unit
failure for every stored value; hence the unit round-trip
`Distance (v, u).GetValue (u) = v` fails for `u = 'mi'` while holding for all
the other tokens the constructor accepts. -/
theorem c10_mi_unit_mismatch :
    (∀ v : ℚ, distanceInit v "mi" = .ok (v * 1609.344)) ∧
    (∀ d : ℚ, distanceGetValue d "mi" = .error "invalid length unit mi") ∧
    (∀ v : ℚ, (distanceInit v "mi").bind (fun d => distanceGetValue d "mi")
      = .error "invalid length unit mi") ∧
    (∀ v : ℚ, (distanceInit v "feet").bind (fun d => distanceGetValue d "feet") = .ok v) ∧
    (∀ v : ℚ, (distanceInit v "ft").bind (fun d => distanceGetValue d "ft") = .ok v) ∧
    (∀ v : ℚ, (distanceInit v "miles").bind (fun d => distanceGetValue d "miles") = .ok v) ∧
    (∀ v : ℚ, (distanceInit v "meters").bind (fun d => distanceGetValue d "meters") = .ok v) ∧
    (∀ v : ℚ, (distanceInit v "m").bind (fun d => distanceGetValue d "m") = .ok v) ∧
    (∀ v : ℚ, (distanceInit v "kilometers").bind (fun d => distanceGetValue d "kilometers") = .ok v) ∧
    (∀ v : ℚ, (distanceInit v "km").bind (fun d => distanceGetValue d "km") = .ok v) ∧
    (∀ v : ℚ, (distanceInit v "nauticalmiles").bind (fun d => distanceGetValue d "nauticalmiles") = .ok v) := by
  refine ⟨?_, ?_, ?_, ?_, ?_, ?_, ?_, ?_, ?_, ?_, ?_⟩
  · intro v
    unfold distanceInit
    rw [if_neg (by decide), if_pos (by decide)]
  · intro d
    unfold distanceGetValue
    rw [if_neg (by decide), if_neg (by decide), if_neg (by decide), if_neg (by decide),
      if_neg (by decide)]
    rfl
  · intro v
    unfold distanceInit distanceGetValue
    rw [if_neg (by decide), if_pos (by decide)]
    simp only [Except.bind]
    rw [if_neg (by decide), if_neg (by decide), if_neg (by decide), if_neg (by decide),
      if_neg (by decide)]
    rfl
  · intro v
    unfold distanceInit distanceGetValue
    rw [if_pos (by decide)]
    simp only [Except.bind]
    rw [if_pos (by decide)]
    simp only [Except.ok.injEq]
    field_simp
    ring
  · intro v
    unfold distanceInit distanceGetValue
    rw [if_pos (by decide)]
    simp only [Except.bind]
    rw [if_pos (by decide)]
    simp only [Except.ok.injEq]
    field_simp
    ring
  · intro v
    unfold distanceInit distanceGetValue
    rw [if_neg (by decide), if_pos (by decide)]
    simp only [Except.bind]
    rw [if_neg (by decide), if_pos (by decide)]
    simp only [Except.ok.injEq]
    norm_num
  · intro v
    unfold distanceInit distanceGetValue
    rw [if_neg (by decide), if_neg (by decide), if_pos (by decide)]
    simp only [Except.bind]
    rw [if_neg (by decide), if_neg (by decide), if_pos (by decide)]
  · intro v
    unfold distanceInit distanceGetValue
    rw [if_neg (by decide), if_neg (by decide), if_pos (by decide)]
    simp only [Except.bind]
    rw [if_neg (by decide), if_neg (by decide), if_pos (by decide)]
  · intro v
    unfold distanceInit distanceGetValue
    rw [if_neg (by decide), if_neg (by decide), if_neg (by decide), if_pos (by decide)]
    simp only [Except.bind]
    rw [if_neg (by decide), if_neg (by decide), if_neg (by decide), if_pos (by decide)]
    simp only [Except.ok.injEq]
    norm_num
  · intro v
    unfold distanceInit distanceGetValue
    rw [if_neg (by decide), if_neg (by decide), if_neg (by decide), if_pos (by decide)]
    simp only [Except.bind]
    rw [if_neg (by decide), if_neg (by decide), if_neg (by decide), if_pos (by decide)]
    simp only [Except.ok.injEq]
    norm_num
  · intro v
    unfold distanceInit distanceGetValue
    rw [if_neg (by decide), if_neg (by decide), if_neg (by decide), if_neg (by decide),
      if_pos (by decide)]
    simp only [Except.bind]
    rw [if_neg (by decide), if_neg (by decide), if_neg (by decide), if_neg (by decide),
      if_pos (by decide)]
    simp only [Except.ok.injEq]
    norm_num

/-- C6 counterexample: `ShowScreen (-1)` is accepted (as screen index 0, the
Detail screen) even though −1 is outside the 6 enumerated screen indices,
because `int (screen + .5)` truncates −0.5 toward zero; the claim says every
out-of-range screen value raises. -/
theorem c6_counterexample : ShowScreen (-1) = Except.ok 0 := by
  have h : (⌈(-(1/2) : ℚ)⌉ : ℤ) = 0 := by norm_num
  norm_num [ShowScreen, pyint, h]

/-- C6 amended: `ShowScreen` accepts exactly the values whose Python rounding
`int (screen + .5)` (truncation toward zero) lands in 0..5 — so −1 is
accepted as screen 0 — and raises otherwise; `LogMessage` accepts exactly the
values whose rounding lands in 0..4 and raises otherwise (for rounded levels
≥ 5 the range assert passes vacuously in Python 2 and the failure comes from
the severity-name lookup instead). -/
theorem c6_amended (q : ℚ) :
    ((ShowScreen q).isOk ↔ 0 ≤ pyint (q + 1/2) ∧ pyint (q + 1/2) < 6) ∧
    ((LogMessage q).isOk ↔ 0 ≤ pyint (q + 1/2) ∧ pyint (q + 1/2) < 5) := by
  constructor
  · simp only [ShowScreen, Except.isOk, Except.toBool]
    by_cases hc : 0 ≤ pyint (q + 1/2) ∧ pyint (q + 1/2) < 6
    · rw [if_pos hc]
      exact iff_of_true rfl hc
    · rw [if_neg hc]
      exact iff_of_false (by simp) hc
  · simp only [LogMessage, Except.isOk, Except.toBool]
    by_cases h0 : 0 ≤ pyint (q + 1/2)
    · rw [if_pos h0]
      by_cases h5 : pyint (q + 1/2) < 5
      · have hlt : (pyint (q + 1/2)).toNat < logNames.length := by
          simp only [logNames, List.length_cons, List.length_nil]
          omega
        rw [List.get?_eq_get hlt]
        exact iff_of_true rfl ⟨h0, h5⟩
      · have hnone : logNames.get? (pyint (q + 1/2)).toNat = none := by
          apply List.get?_eq_none.mpr
          simp only [logNames, List.length_cons, List.length_nil]
          omega
        rw [hnone]
        exact iff_of_false (by simp) (fun h => h5 h.2)
    · rw [if_neg h0]
      exact iff_of_false (by simp) (fun h => h0 h.1)

/-- C3 counterexample: an Interval timer (Duration 5) firing on schedule at
time 10 with an on-tick handler produces the side effects
`[add_timer 5, OnTick]` — the next external scheduling request is issued
before the on-tick handler is invoked, not after it as the claim states. -/
theorem c3_counterexample :
    (timerTick 10 c3Timer).2 = [TEvent.AddTimer 5, TEvent.OnTick] := by
  norm_num [timerTick, c3Timer]

/-- C3 amended: when an Interval timer's scheduled fire elapses, the new
target is `target + Duration` clamped forward to the current time, the
scheduled delay is never negative, and the side effects are: the on-start
handler (if present), then the external scheduling request, and only then the
on-tick handler — the scheduling request precedes the on-tick invocation. -/
theorem c3_amended (now tgt : ℚ) (t : Timer) (hI : t.timerType = "Interval")
    (ht : t.target = some tgt) (hel : tgt ≤ now) :
    (timerTick now t).1.target
      = some (if tgt + t.Duration < now then now else tgt + t.Duration) ∧
    (∀ d, TEvent.AddTimer d ∈ (timerTick now t).2 → 0 ≤ d) ∧
    (timerTick now t).2 =
      (if t.hasOnStart then [TEvent.OnStart] else []) ++
      [TEvent.AddTimer ((if tgt + t.Duration < now then now else tgt + t.Duration) - now)] ++
      (if t.hasOnTick then [TEvent.OnTick] else []) := by
  have h1 : ¬ (tgt > now) := not_lt.mpr hel
  simp only [timerTick, hI, ht, if_pos, if_neg h1, if_true]
  by_cases h2 : tgt + t.Duration < now
  · simp only [if_pos h2]
    refine ⟨by simp, ?_, by simp⟩
    intro d hd
    by_cases hS : t.hasOnStart <;> by_cases hT : t.hasOnTick <;>
      simp [hS, hT] at hd <;> simp [hd]
  · simp only [if_neg h2]
    refine ⟨by simp, ?_, by simp⟩
    intro d hd
    have h3 : (0:ℚ) ≤ tgt + t.Duration - now := by linarith [not_lt.mp h2]
    by_cases hS : t.hasOnStart <;> by_cases hT : t.hasOnTick <;>
      simp [hS, hT] at hd <;> simp [hd, h3]

/-- C3 witness: the amended statement evaluated for the interval timer
`c3Timer` (Duration 5, target 10) ticked at time 12. -/
theorem c3_amended_witness :
    (10 : ℚ) ≤ 12 ∧
    ((timerTick 12 c3Timer).1.target
        = some (if 10 + c3Timer.Duration < 12 then (12:ℚ) else 10 + c3Timer.Duration) ∧
      (∀ d, TEvent.AddTimer d ∈ (timerTick 12 c3Timer).2 → 0 ≤ d) ∧
      (timerTick 12 c3Timer).2 =
        (if c3Timer.hasOnStart then [TEvent.OnStart] else []) ++
        [TEvent.AddTimer ((if 10 + c3Timer.Duration < 12 then (12:ℚ) else 10 + c3Timer.Duration) - 12)] ++
        (if c3Timer.hasOnTick then [TEvent.OnTick] else [])) :=
  ⟨by norm_num, c3_amended 12 10 c3Timer rfl rfl (by norm_num)⟩

/-- C9: every Tick of a running Interval timer that has an OnStart handler
invokes OnStart first — before the next scheduling request and before
OnTick — so a running Interval timer observes OnStart once per interval fire,
not only on `Start ()`. -/
theorem c9_interval_onstart (now tgt : ℚ) (t : Timer) (hI : t.timerType = "Interval")
    (ht : t.target = some tgt) (hs : t.hasOnStart = true) :
    ∃ d, (timerTick now t).2 =
      TEvent.OnStart :: TEvent.AddTimer d ::
        (if t.hasOnTick then [TEvent.OnTick] else []) := by
  simp only [timerTick, hI, ht, hs, if_pos, if_true]
  exact ⟨_, rfl⟩

/-- C9 witness: the interval timer `c9Timer` (OnStart and OnTick handlers
attached) ticked at time 12. -/
theorem c9_interval_onstart_witness :
    c9Timer.hasOnStart = true ∧
    ∃ d, (timerTick 12 c9Timer).2 =
      TEvent.OnStart :: TEvent.AddTimer d ::
        (if c9Timer.hasOnTick then [TEvent.OnTick] else []) :=
  ⟨rfl, c9_interval_onstart 12 10 c9Timer rfl rfl rfl⟩

/-! Helper lemmas about the per-zone tick phases. -/

theorem zoneActivation_preserves (z : Zone) :
    (zoneActivation z).1.Active = z.Active ∧ (zoneActivation z).1.Points = z.Points ∧
    (zoneActivation z).1.State = z.State ∧ (zoneActivation z).1.prevState = z.prevState ∧
    (zoneActivation z).1.prevInside = z.prevInside ∧
    (zoneActivation z).1.inInsideSet = z.inInsideSet := by
  unfold zoneActivation
  split
  · dsimp only
    split <;> exact ⟨rfl, rfl, rfl, rfl, rfl, rfl⟩
  · exact ⟨rfl, rfl, rfl, rfl, rfl, rfl⟩

theorem zoneActivation_of_steady (z : Zone) (h : z.prevActive = z.Active) :
    zoneActivation z = (z, [], false) := by
  unfold zoneActivation
  rw [if_neg]
  simp [h]

theorem zoneContainment_preserves (inside : Bool) (z : Zone) :
    (zoneContainment inside z).1.Active = z.Active ∧
    (zoneContainment inside z).1.Points = z.Points ∧
    (zoneContainment inside z).1.State = z.State ∧
    (zoneContainment inside z).1.prevState = z.prevState := by
  unfold zoneContainment
  split
  · exact ⟨rfl, rfl, rfl, rfl⟩
  · dsimp only
    split <;> exact ⟨rfl, rfl, rfl, rfl⟩

theorem zoneClassify_State_ne_Inside (z : Zone) :
    (zoneClassify z).1.State ≠ ZState.Inside := by
  unfold zoneClassify
  split_ifs <;> simp

theorem zoneClassify_preserves (z : Zone) :
    (zoneClassify z).1.Points = z.Points ∧ (zoneClassify z).1.Active = z.Active := by
  unfold zoneClassify
  split_ifs <;> exact ⟨rfl, rfl⟩

theorem zoneGeneric_preserves (z : Zone) :
    (zoneGeneric z).1.State = z.State ∧ (zoneGeneric z).1.Points = z.Points ∧
    (zoneGeneric z).1.Active = z.Active := by
  unfold zoneGeneric
  split
  · dsimp only
    split <;> exact ⟨rfl, rfl, rfl⟩
  · exact ⟨rfl, rfl, rfl⟩

theorem stateEvent_ne_OnSetActive (s : ZState) : stateEvent s ≠ ZEvent.OnSetActive := by
  cases s <;> simp [stateEvent]

theorem zoneContainment_no_OnSetActive (inside : Bool) (z : Zone) :
    ZEvent.OnSetActive ∉ (zoneContainment inside z).2.1 := by
  unfold zoneContainment
  split
  · simp
  · dsimp only
    split <;> split_ifs <;> simp

theorem zoneClassify_no_OnSetActive (z : Zone) :
    ZEvent.OnSetActive ∉ (zoneClassify z).2.1 := by
  unfold zoneClassify
  split_ifs <;> simp

theorem zoneGeneric_no_OnSetActive (z : Zone) :
    ZEvent.OnSetActive ∉ (zoneGeneric z).2.1 := by
  unfold zoneGeneric
  split
  · dsimp only
    split
    · intro hmem
      rw [List.mem_singleton] at hmem
      exact stateEvent_ne_OnSetActive _ hmem.symm
    · simp
  · simp

/-- C1 counterexample: the exact scenario of the claim — an active, steady
zone, previously not inside with previous public State `NotInRange`, player
outside the polygon but closer than `ProximityRange` — fires `OnDistant` and
then also `OnProximity` (as the generic state-change handler of
src/wherigo.py 619-627), while the claim says `OnProximity` does not fire. -/
theorem c1_counterexample :
    (zoneTick vtz600 ⟨5, 5⟩ c1Zone).2.1 = [ZEvent.OnDistant, ZEvent.OnProximity] ∧
    (zoneTick vtz600 ⟨5, 5⟩ c1Zone).1.State = ZState.Proximity ∧
    IsPointInZone (some ⟨5, 5⟩) c1Zone.Points = false ∧
    (vtz600 c1Zone).1 < c1Zone.ProximityRange := by
  refine ⟨?_, ?_, ?_, by norm_num [vtz600, c1Zone]⟩ <;>
    · norm_num [zoneTick, zoneActivation, zoneContainment, zoneClassify, zoneGeneric,
        stateHandlerPresent, stateEvent, c1Zone, vtz600, sqPts, IsPointInZone, crossCount,
        intersect, pymod, closedEdges, nonorigin]
      try rfl

/-- C1 amended: in the claim's scenario the tick fires `OnDistant` exactly
once and the Zone's public State becomes `Proximity`; in addition, if an
`OnProximity` handler is present it is fired exactly once as the generic
state-change handler, after `OnDistant`. -/
theorem c1_amended (vtz : Zone → ℚ × ℚ) (pos : ZonePt) (z : Zone)
    (hact : z.Active = true) (hprev : z.prevActive = true)
    (hin : z.prevInside = false) (hst : z.prevState = ZState.NotInRange)
    (hpts : z.Points ≠ [])
    (hout : IsPointInZone (some pos) z.Points = false)
    (hd : (vtz z).1 < z.ProximityRange)
    (hD : z.hasOnDistant = true) :
    (zoneTick vtz pos z).2.1 =
      [ZEvent.OnDistant] ++ (if z.hasOnProximity then [ZEvent.OnProximity] else []) ∧
    (zoneTick vtz pos z).1.State = ZState.Proximity := by
  have hsteady := zoneActivation_of_steady z (hprev.trans hact.symm)
  by_cases hP : z.hasOnProximity <;>
    simp [zoneTick, hsteady, zoneContainment, zoneClassify, zoneGeneric,
      stateHandlerPresent, stateEvent, hact, hin, hst, hout, hd, hD, hP]

/-- C1 witness: the amended statement evaluated on the concrete scenario zone
`c1Zone` with the player at (5,5). -/
theorem c1_amended_witness :
    IsPointInZone (some ⟨5, 5⟩) c1Zone.Points = false ∧
    ((zoneTick vtz600 ⟨5, 5⟩ c1Zone).2.1 =
      [ZEvent.OnDistant] ++ (if c1Zone.hasOnProximity then [ZEvent.OnProximity] else []) ∧
    (zoneTick vtz600 ⟨5, 5⟩ c1Zone).1.State = ZState.Proximity) :=
  ⟨by norm_num [c1Zone, sqPts, IsPointInZone, crossCount, intersect, pymod, closedEdges, nonorigin],
    c1_amended vtz600 ⟨5, 5⟩ c1Zone rfl rfl rfl rfl (by simp [c1Zone, sqPts])
      (by norm_num [c1Zone, sqPts, IsPointInZone, crossCount, intersect, pymod, closedEdges,
        nonorigin])
      (by norm_num [vtz600, c1Zone]) rfl⟩

/-- C2: at the failing input — a zone whose `Active` flag was toggled away
and back between two ticks, so that at tick time it equals the `_active`
tracker — the engine fires `OnSetActive` zero times, not twice: the
activation edge detector of src/wherigo.py 557-563 only compares the flag
value at tick time, exactly as the TODO comment on line 558 admits
("Setting a zone active and immediately inactive doesn't make it fire,
while it should make it fire twice"). -/
theorem c2_no_double_fire (vtz : Zone → ℚ × ℚ) (pos : ZonePt) (z : Zone)
    (h : z.prevActive = z.Active) :
    ((zoneTick vtz pos z).2.1).count ZEvent.OnSetActive = 0 := by
  have hsteady := zoneActivation_of_steady z h
  unfold zoneTick
  rw [hsteady]
  simp only []
  split
  · split <;> simp
  · split
    · rw [List.count_eq_zero]
      intro hmem
      rcases List.mem_append.mp hmem with h1 | h2
      · simp at h1
      · exact zoneContainment_no_OnSetActive _ _ h2
    · rw [List.count_eq_zero]
      intro hmem
      rcases List.mem_append.mp hmem with h1 | h4
      · rcases List.mem_append.mp h1 with h2 | h3
        · rcases List.mem_append.mp h2 with h5 | h6
          · simp at h5
          · exact zoneContainment_no_OnSetActive _ _ h6
        · exact zoneClassify_no_OnSetActive _ h3
      · exact zoneGeneric_no_OnSetActive _ h4

/-- C2 witness: the zone `c2Zone` (tracker equal to the restored `Active`
flag, `OnSetActive` handler attached) fires `OnSetActive` zero times. -/
theorem c2_no_double_fire_witness :
    c2Zone.prevActive = c2Zone.Active ∧
    ((zoneTick vtz600 ⟨5, 5⟩ c2Zone).2.1).count ZEvent.OnSetActive = 0 :=
  ⟨rfl, c2_no_double_fire vtz600 ⟨5, 5⟩ c2Zone rfl⟩

/-- C5 counterexample: a zone deactivated while its public State was `Inside`
still reports State `Inside` after a tick that observes the player outside
its polygon — the inactive branch of src/wherigo.py 564-568 skips the zone
without touching its stale State, contradicting the claim's quantification
over "all reachable object graphs, including a Zone that is deactivated
while its State is 'Inside'". -/
theorem c5_counterexample :
    (zoneTick vtz600 ⟨5, 5⟩ c5Zone).1.State = ZState.Inside ∧
    IsPointInZone (some ⟨5, 5⟩) (zoneTick vtz600 ⟨5, 5⟩ c5Zone).1.Points = false := by
  constructor <;>
    norm_num [zoneTick, zoneActivation, zoneContainment, zoneClassify, zoneGeneric,
      stateHandlerPresent, stateEvent, c5Zone, c1Zone, vtz600, sqPts, IsPointInZone,
      crossCount, intersect, pymod, closedEdges, nonorigin]

/-- C5 amended: the invariant holds for every **Active** zone (with a
nonempty boundary list — the source raises on an empty one): after the tick,
its public State is `Inside` exactly when `pointInZone (playerPosition,
zone)` is true; the boundary list itself is untouched by the tick.  An
inactive zone is skipped and can keep a stale `Inside` State. -/
theorem c5_amended (vtz : Zone → ℚ × ℚ) (pos : ZonePt) (z : Zone)
    (hact : z.Active = true) (hpts : z.Points ≠ []) :
    ((zoneTick vtz pos z).1.State = ZState.Inside ↔
      IsPointInZone (some pos) z.Points = true) ∧
    (zoneTick vtz pos z).1.Points = z.Points := by
  obtain ⟨hA, hP, hS, hPS, hPI, hIS⟩ := zoneActivation_preserves z
  unfold zoneTick
  simp only [hA, hact, hP]
  split
  · simp_all
  · split
    · rename_i hin
      constructor
      · simp [hin]
      · simp [(zoneContainment_preserves _ _).2.1, hP]
    · rename_i hin
      constructor
      · constructor
        · intro hfin
          exact absurd ((zoneGeneric_preserves _).1.symm.trans hfin)
            (zoneClassify_State_ne_Inside _)
        · intro htrue
          exact absurd htrue hin
      · rw [(zoneGeneric_preserves _).2.1, (zoneClassify_preserves _).1]
        dsimp only
        rw [(zoneContainment_preserves _ _).2.1, hP]

/-- C5 witness: the amended statement evaluated for the active scenario zone
`c1Zone` and the outside player position (5,5). -/
theorem c5_amended_witness :
    c1Zone.Active = true ∧
    (((zoneTick vtz600 ⟨5, 5⟩ c1Zone).1.State = ZState.Inside ↔
      IsPointInZone (some ⟨5, 5⟩) c1Zone.Points = true) ∧
    (zoneTick vtz600 ⟨5, 5⟩ c1Zone).1.Points = c1Zone.Points) :=
  ⟨rfl, c5_amended vtz600 ⟨5, 5⟩ c1Zone rfl (by simp [c1Zone, sqPts])⟩

/-! Helper lemmas for the rotation behaviour of `IsPointInZone`. -/

theorem rotate_one_cons {α : Type} (a : α) (l : List α) : (a :: l).rotate 1 = l ++ [a] := by
  simpa using List.rotate_cons_succ l a 0

theorem zip_rotate_one {α β : Type} (l : List α) (m : List β) (h : l.length = m.length) :
    (l.rotate 1).zip (m.rotate 1) = (l.zip m).rotate 1 := by
  cases l with
  | nil =>
    cases m with
    | nil => simp
    | cons b m2 => simp at h
  | cons a l2 =>
    cases m with
    | nil => simp at h
    | cons b m2 =>
      have hlen : l2.length = m2.length := by simpa using h
      rw [rotate_one_cons, rotate_one_cons, List.zip_cons_cons, rotate_one_cons,
        List.zip_append hlen]
      simp

theorem zip_rotate {α β : Type} :
    ∀ (k : ℕ) (l : List α) (m : List β), l.length = m.length →
      (l.rotate k).zip (m.rotate k) = (l.zip m).rotate k
  | 0, l, m, _ => by simp
  | (k + 1), l, m, h => by
    have h1 : (l.rotate 1).length = (m.rotate 1).length := by
      rw [List.length_rotate, List.length_rotate, h]
    have e : ∀ {γ : Type} (x : List γ), x.rotate (k + 1) = (x.rotate 1).rotate k := by
      intro γ x
      rw [List.rotate_rotate, Nat.add_comm]
    rw [e l, e m, e (l.zip m), zip_rotate k _ _ h1, zip_rotate_one l m h]

theorem closedEdges_eq_zip : ∀ l : List ZonePt, closedEdges l = l.zip (l.rotate 1)
  | [] => rfl
  | p :: ps => by rw [closedEdges, rotate_one_cons]

theorem closedEdges_rotate (l : List ZonePt) (k : ℕ) :
    closedEdges (l.rotate k) = (closedEdges l).rotate k := by
  rw [closedEdges_eq_zip, closedEdges_eq_zip,
    show (l.rotate k).rotate 1 = (l.rotate 1).rotate k from by
      rw [List.rotate_rotate, List.rotate_rotate, Nat.add_comm]]
  exact zip_rotate k l (l.rotate 1) (List.length_rotate l 1).symm

/-- The crossing count of any fixed query point is invariant under rotation
of the boundary list: the closed edge list of a rotation is a permutation of
the original closed edge list. -/
theorem crossCount_rotate (p : GeoPoint) (l : List ZonePt) (k : ℕ) :
    crossCount p (l.rotate k) = crossCount p l := by
  unfold crossCount
  rw [closedEdges_rotate]
  exact List.Perm.sum_eq (List.Perm.map _ (List.rotate_perm _ _))

/-- C4 counterexample: for the triangle `cexPts` (3 boundary points) and the
query point (40,154), `IsPointInZone` answers `true`, but after rotating the
boundary list by one position it answers `false` — the synthesized exterior
reference point is derived from `points[0]` and its crossing parity differs
between the two rotations. -/
theorem c4_counterexample :
    IsPointInZone (some ⟨40, 154⟩) cexPts = true ∧
    IsPointInZone (some ⟨40, 154⟩) (cexPts.rotate 1) = false ∧
    3 ≤ cexPts.length := by
  refine ⟨?_, ?_, by simp [cexPts]⟩ <;>
    norm_num [IsPointInZone, crossCount, intersect, pymod, closedEdges, nonorigin, cexPts,
      List.rotate]

/-- C4 amended: the query point's own crossing count is rotation-invariant,
so `IsPointInZone` gives the same answer for a rotation of the boundary list
whenever the synthesized reference points of the two rotations have the same
boundary-crossing parity; in general the answer can change under rotation
because the reference point is derived from the list's first vertex. -/
theorem c4_amended (pts : List ZonePt) (k : ℕ) (p : GeoPoint)
    (hpar : crossCount (nonorigin (pts.rotate k)) (pts.rotate k) % 2
      = crossCount (nonorigin pts) pts % 2) :
    IsPointInZone p (pts.rotate k) = IsPointInZone p pts := by
  cases p with
  | none => rfl
  | some q =>
    simp only [IsPointInZone]
    rw [crossCount_rotate]
    have h2 : (crossCount (some q) pts
          + crossCount (nonorigin (pts.rotate k)) (pts.rotate k)) % 2
        = (crossCount (some q) pts + crossCount (nonorigin pts) pts) % 2 := by
      omega
    rw [h2]

/-- C4 witness: the amended statement for the square zone `sqPts`, rotation
by one, and the interior point (1/2, 1/2): both reference points have
crossing parity 0 and the two answers agree. -/
theorem c4_amended_witness :
    crossCount (nonorigin (sqPts.rotate 1)) (sqPts.rotate 1) % 2
      = crossCount (nonorigin sqPts) sqPts % 2 ∧
    IsPointInZone (some ⟨1/2, 1/2⟩) (sqPts.rotate 1)
      = IsPointInZone (some ⟨1/2, 1/2⟩) sqPts :=
  ⟨by norm_num [crossCount, intersect, pymod, closedEdges, nonorigin, sqPts, List.rotate],
    c4_amended sqPts 1 (some ⟨1/2, 1/2⟩)
      (by norm_num [crossCount, intersect, pymod, closedEdges, nonorigin, sqPts, List.rotate])⟩

/-! Helper lemmas for `MoveTo`. -/

theorem MoveTo_container (s : GraphState) (e : ℕ) (ow : Option ℕ) (x : ℕ) :
    (MoveTo s e ow).container x = if x = e then ow else s.container x := by
  unfold MoveTo
  cases hc : s.container e <;> cases ow <;> rfl

theorem MoveTo_inventory (s : GraphState) (e : ℕ) (ow : Option ℕ) (c : ℕ) :
    (MoveTo s e ow).inventory c =
      (if ow = some c
        then (if s.container e = some c then (s.inventory c).erase e else s.inventory c) ++ [e]
        else (if s.container e = some c then (s.inventory c).erase e else s.inventory c)) := by
  unfold MoveTo
  cases hc : s.container e <;> cases ow <;> dsimp only <;> split_ifs <;> simp_all

theorem MoveTo_consistent (s : GraphState) (e : ℕ) (ow : Option ℕ)
    (hs : Consistent s) : Consistent (MoveTo s e ow) := by
  obtain ⟨h1, h2⟩ := hs
  have hnot : ∀ c, s.container e ≠ some c → e ∉ s.inventory c := fun c hne hmem =>
    hne (h1 e c hmem)
  have herase0 : ∀ c, ((if s.container e = some c then (s.inventory c).erase e
      else s.inventory c) : List ℕ).count e = 0 := by
    intro c
    split_ifs with hcc
    · have ha := h2 e c
      have hb := List.count_erase_self e (s.inventory c)
      omega
    · exact List.count_eq_zero.mpr (hnot c hcc)
  have hbase_mem : ∀ x c, x ≠ e →
      x ∈ ((if s.container e = some c then (s.inventory c).erase e
        else s.inventory c) : List ℕ) → x ∈ s.inventory c := by
    intro x c _ hx
    split_ifs at hx with hcc
    · exact List.mem_of_mem_erase hx
    · exact hx
  constructor
  · intro x c hx
    rw [MoveTo_inventory] at hx
    rw [MoveTo_container]
    by_cases hxe : x = e
    · subst hxe
      rw [if_pos rfl]
      by_cases howc : ow = some c
      · exact howc
      · exfalso
        rw [if_neg howc] at hx
        exact List.count_eq_zero.mp (herase0 c) hx
    · rw [if_neg hxe]
      apply h1 x c
      by_cases howc : ow = some c
      · rw [if_pos howc] at hx
        rcases List.mem_append.mp hx with hx1 | hx2
        · exact hbase_mem x c hxe hx1
        · exact absurd (List.mem_singleton.mp hx2) hxe
      · rw [if_neg howc] at hx
        exact hbase_mem x c hxe hx
  · intro x c
    rw [MoveTo_inventory]
    by_cases hxe : x = e
    · subst hxe
      by_cases howc : ow = some c
      · rw [if_pos howc, List.count_append, herase0 c]
        simp
      · rw [if_neg howc]
        split_ifs with hcc
        · have ha := h2 x c
          have hb := List.count_erase_self x (s.inventory c)
          omega
        · exact h2 x c
    · have hcnt : ((if s.container e = some c then (s.inventory c).erase e
          else s.inventory c) : List ℕ).count x = (s.inventory c).count x := by
        split_ifs with hcc
        · exact List.count_erase_of_ne hxe (s.inventory c)
        · rfl
      by_cases howc : ow = some c
      · rw [if_pos howc, List.count_append, hcnt]
        have hone : List.count x [e] = 0 := by simp [hxe]
        have ha := h2 x c
        omega
      · rw [if_neg howc, hcnt]
        exact h2 x c

/-- C8: starting from any consistent containment state, any sequence of
`MoveTo` calls preserves consistency — every entity appears in at most one
Inventory and at most once in it, and Inventory membership matches the
Container back-reference; moreover `MoveTo` onto the container whose
Inventory already holds the entity leaves exactly one occurrence there
(no duplication). -/
theorem c8_moveTo_invariant :
    (∀ (moves : List (ℕ × Option ℕ)) (s : GraphState), Consistent s →
      Consistent (moves.foldl (fun t m => MoveTo t m.1 m.2) s)) ∧
    (∀ (s : GraphState) (e o : ℕ), Consistent s → e ∈ s.inventory o →
      ((MoveTo s e (some o)).inventory o).count e = 1) ∧
    (∀ (s : GraphState) (x c c2 : ℕ), Consistent s →
      x ∈ s.inventory c → x ∈ s.inventory c2 → c = c2) := by
  refine ⟨?_, ?_, ?_⟩
  · intro moves
    induction moves with
    | nil => intro s hs; exact hs
    | cons m rest ih =>
      intro s hs
      exact ih (MoveTo s m.1 m.2) (MoveTo_consistent s m.1 m.2 hs)
  · intro s e o hs hmem
    have hco : s.container e = some o := hs.1 e o hmem
    rw [MoveTo_inventory, if_pos rfl, if_pos hco, List.count_append,
      List.count_erase_self]
    have ha := hs.2 e o
    have hb : 1 ≤ (s.inventory o).count e := List.one_le_count_iff.mpr hmem
    simp
    omega
  · intro s x c c2 hs hx hx2
    have e1 : s.container x = some c := hs.1 x c hx
    have e2 : s.container x = some c2 := hs.1 x c2 hx2
    have := e1.symm.trans e2
    simpa using this

/-- C8 witness: the invariant applied to the concrete one-edge state `c8One`
(entity 3 inside entity 2): moving 1 into 2 keeps consistency, and moving 3
onto its current container 2 leaves exactly one occurrence of 3. -/
theorem c8_moveTo_invariant_witness :
    Consistent (([(1, some 2)] : List (ℕ × Option ℕ)).foldl
      (fun t m => MoveTo t m.1 m.2) c8One) ∧
    ((MoveTo c8One 3 (some 2)).inventory 2).count 3 = 1 := by
  have hc : Consistent c8One := by
    constructor
    · intro x c hx
      simp only [c8One] at hx ⊢
      split_ifs at hx with h
      · rw [List.mem_singleton] at hx
        subst hx
        simp [h]
      · simp at hx
    · intro x c
      simp only [c8One]
      split_ifs <;> simp [List.count_singleton]
      split_ifs <;> omega
  refine ⟨c8_moveTo_invariant.1 [(1, some 2)] c8One hc,
    c8_moveTo_invariant.2.1 c8One 3 2 hc ?_⟩
  simp [c8One]

end Wherigo
